import Mathlib

/-!
# ClayRS — verification of the metric-evaluation pipeline and adapter layers

Shallow embedding of the ClayRS recommender-system toolkit fragments:

* `field_content_production_technique.py` — `process_data` and the
  `CollectionBasedTechnique.produce_content` lifecycle;
* `regressors.py` — the sparse/dense input handling of `SkRidge`,
  `SkBayesianRidge` and `SkARDRegression`;
* `evaluation/metrics/__init__.py` — the package module body (as its lines);
* the metric evaluation pipeline (`MetricEvaluator.eval_metrics`), whose
  implementation is not part of the provided sources: it is modelled from the
  specification (sections 4.1–4.3, 7, 8) and constrained by the repository's
  own test `test_metric_evaluator.py`.

Scores are modelled as rationals (`ℚ`): every quantity the claims mention is
produced by finitely many additions and divisions, so exact arithmetic is a
faithful stand-in for the float computations.
-/

namespace ClayRS

/-! ## `FieldContentProductionTechnique.process_data`

Source: `field_content_production_technique.py`, lines 33–51.  The data is a
string or a token list (`Union[List[str], str]`); each preprocessor maps such
data to such data. -/

/-- `Union[List[str], str]`: the data flowing through preprocessors. -/
inductive FieldData : Type
  | str : String → FieldData
  | tokens : List String → FieldData
deriving DecidableEq

/-- An `InformationProcessor` exposes a `process` method. -/
structure InformationProcessor : Type where
  process : FieldData → FieldData

/-- Embedding of `FieldContentProductionTechnique.process_data`:
`processed_data = data; for preprocessor in preprocessor_list:
processed_data = preprocessor.process(processed_data); return processed_data`. -/
def process_data (data : FieldData) : List InformationProcessor → FieldData
  | [] => data
  | preprocessor :: rest => process_data (preprocessor.process data) rest

/-! ## `CollectionBasedTechnique.produce_content`

Source: `field_content_production_technique.py`, lines 142–216 and 329–389.
The Python object state (`self`) is made explicit: a technique is its three
abstract methods, each threading the state `σ`; `produce_content` is the
concrete driver defined in the base class. -/

/-- A `CollectionBasedTechnique`: `dataset_refactor` builds the refactored
dataset inside the state and returns its length, `produce_single_repr` reads
one representation from the state, `delete_refactored` drops the refactored
dataset from the state. -/
structure CollectionBasedTechnique (σ Source Re : Type) : Type where
  dataset_refactor : σ → Source → σ × Nat
  produce_single_repr : σ → Nat → Re
  delete_refactored : σ → σ

/-- Embedding of `CollectionBasedTechnique.produce_content`: refactor the
dataset, read representation `i` for every `i` in `range(0, dataset_len)`,
delete the refactored dataset, return the (new state, representation list). -/
def produce_content {σ Source Re : Type} (t : CollectionBasedTechnique σ Source Re)
    (st : σ) (source : Source) : σ × List Re :=
  let refd := t.dataset_refactor st source
  let dataset_len := refd.2
  let representation_list := (List.range dataset_len).map (t.produce_single_repr refd.1)
  (t.delete_refactored refd.1, representation_list)

/-- State of `TfIdfTechnique` (also the shape of `SynsetDocumentFrequency`):
the optional csr matrix `_tfidf_matrix` and optional `_feature_names`;
`none` models the attribute being absent (after `del`). -/
structure TfIdfState (M : Type) : Type where
  tfidf_matrix : Option M
  feature_names : Option (List String)

/-- `TfIdfTechnique.delete_refactored`: `del self._tfidf_matrix;
del self._feature_names` — both attributes are removed. -/
def tfIdfDeleteRefactored {M : Type} : TfIdfState M → TfIdfState M :=
  fun _ => ⟨none, none⟩

/-- A `TfIdfTechnique`-shaped collection-based technique: its refactor and
single-representation methods are abstract, its `delete_refactored` is the
concrete one above. -/
def mkTfIdfTechnique {M Source Re : Type}
    (refactor : TfIdfState M → Source → TfIdfState M × Nat)
    (single : TfIdfState M → Nat → Re) :
    CollectionBasedTechnique (TfIdfState M) Source Re :=
  ⟨refactor, single, tfIdfDeleteRefactored⟩

/-! ## Regressor wrappers (`regressors.py`)

`SkRidge`, `SkBayesianRidge` and `SkARDRegression` override `fit`/`predict`
with `X.toarray() if isinstance(X, sparse.csr_matrix) else X`.  The sklearn
model is abstract: a state together with its own fit/predict functions on
dense input; a csr matrix is abstract with its `toarray` conversion. -/

/-- An sklearn linear model: internal state `St`, fitting on dense data `D`
with targets `T` returns the fitted state, prediction on dense data returns
`P`. -/
structure SKLearnModel (D T P St : Type) : Type where
  state : St
  fitFn : St → D → T → St
  predictFn : St → D → P

/-- `X.toarray() if isinstance(X, sparse.csr_matrix) else X`: the
`Union[np.ndarray, csr_matrix]` argument is `D ⊕ S`; a sparse input is
converted with `toarray`, a dense input is passed through unchanged. -/
def densify {D S : Type} (toarray : S → D) : D ⊕ S → D
  | Sum.inl x => x
  | Sum.inr x => toarray x

/-- `SkRidge.fit` (lines 89–90). -/
def skRidge_fit {D S T P St : Type} (toarray : S → D) (m : SKLearnModel D T P St)
    (X : D ⊕ S) (Y : T) : St :=
  m.fitFn m.state (densify toarray X) Y

/-- `SkRidge.predict` (lines 92–93). -/
def skRidge_predict {D S T P St : Type} (toarray : S → D) (m : SKLearnModel D T P St)
    (X_pred : D ⊕ S) : P :=
  m.predictFn m.state (densify toarray X_pred)

/-- `SkBayesianRidge.fit` (lines 110–111). -/
def skBayesianRidge_fit {D S T P St : Type} (toarray : S → D) (m : SKLearnModel D T P St)
    (X : D ⊕ S) (Y : T) : St :=
  m.fitFn m.state (densify toarray X) Y

/-- `SkBayesianRidge.predict` (lines 113–114). -/
def skBayesianRidge_predict {D S T P St : Type} (toarray : S → D) (m : SKLearnModel D T P St)
    (X_pred : D ⊕ S) : P :=
  m.predictFn m.state (densify toarray X_pred)

/-- `SkARDRegression.fit` (lines 145–146). -/
def skARDRegression_fit {D S T P St : Type} (toarray : S → D) (m : SKLearnModel D T P St)
    (X : D ⊕ S) (Y : T) : St :=
  m.fitFn m.state (densify toarray X) Y

/-- `SkARDRegression.predict` (lines 148–149). -/
def skARDRegression_predict {D S T P St : Type} (toarray : S → D) (m : SKLearnModel D T P St)
    (X_pred : D ⊕ S) : P :=
  m.predictFn m.state (densify toarray X_pred)

/-! ## The `clayrs.evaluation.metrics` package module body

Source: `src/clayrs/evaluation/metrics/__init__.py`, reproduced line by line.
It contains unresolved git merge-conflict markers. -/

/-- The lines of `clayrs/evaluation/metrics/__init__.py`, verbatim. -/
def metricsInitLines : List String :=
  [ "from .classification_metrics import Precision, PrecisionAtK, RPrecision, Recall, RecallAtK, \\"
  , "    FMeasure, FMeasureAtK"
  , "from .error_metrics import MAE, MSE, RMSE"
  , "<<<<<<< HEAD"
  , "from .fairness_metrics import GiniIndex, DeltaGap, PredictionCoverage, CatalogCoverage, AvgPopularity, AvgPopularityAtK, FairnessMetric, EPC, APLT"
  , "======="
  , "from .fairness_metrics import GiniIndex, DeltaGap, PredictionCoverage, CatalogCoverage, AvgPopularity, AvgPopularityAtK, FairnessMetric"
  , ">>>>>>> e4cd5423b39a3cdbda2f9558949c3e1c304678a0"
  , "from .plot_metrics import PopRatioProfileVsRecs, PopRecsCorrelation, LongTailDistr"
  , "from .ranking_metrics import NDCG, NDCGAtK, MRR, MRRAtK, Correlation, MAP"
  , "from .metrics import Metric"
  , "" ]

/-- Modelled from the spec: the missing part is the Python interpreter.  No
Python statement begins with the characters `<`, `=` or `>`, so a module-body
line starting with one of them cannot be parsed; this predicate flags such a
line as a syntax error. -/
def pythonTopLevelSyntaxError (l : String) : Bool :=
  match l.toList with
  | [] => false
  | c :: _ => c = '<' || c = '=' || c = '>'

/-- Modelled from the spec: the missing part is Python's import machinery.
Importing a package executes its `__init__` module body; if any top-level line
fails to parse, the import raises `SyntaxError` and binds no names, otherwise
it succeeds. -/
def importEvaluationMetrics : Except String Unit :=
  if metricsInitLines.any pythonTopLevelSyntaxError then Except.error "SyntaxError"
  else Except.ok ()

/-! ## The metric evaluation pipeline

`MetricEvaluator.eval_metrics` and the metric classes are code of this
repository that is not among the provided sources (only the test
`test_metric_evaluator.py` is).  The pipeline below is modelled from the
spec — §4.1 (RankingAlignment), §4.2 (MetricRegistry), §4.3
(ResultAggregator), §6 (inputs), §7 (error taxonomy), §8 (testable
properties) — with the concrete row/column labels and the emptiness behaviour
fixed by the repository's own test assertions. -/

/-- One row of a rankings / truth table: `(user_id, item_id, score)`. -/
structure Interaction : Type where
  user_id : String
  item_id : String
  score : ℚ
deriving DecidableEq

/-- A fold's predicted ranking: rows in ranked order, grouped per user. -/
def RankTable : Type := List Interaction

/-- A fold's ground truth table. -/
def TruthTable : Type := List Interaction

/-- A fold pairs one ranking table with one truth table. -/
structure Fold : Type where
  rank : List Interaction
  truth : List Interaction
deriving DecidableEq

/-- `insertUnique acc x` appends `x` unless already present. -/
def insertUnique {α : Type} [DecidableEq α] (acc : List α) (x : α) : List α :=
  if x ∈ acc then acc else acc ++ [x]

/-- Deduplicate a list keeping the first appearance of each element, in
order (spec §4.3: "insertion order of first appearance"). -/
def firstAppearance {α : Type} [DecidableEq α] (l : List α) : List α :=
  l.foldl insertUnique []

/-- Users of a fold's ranking, in order of first appearance. -/
def rankUsers (f : Fold) : List String :=
  firstAppearance (f.rank.map (fun r => r.user_id))

/-- Users of a fold's truth, in order of first appearance. -/
def truthUsers (f : Fold) : List String :=
  firstAppearance (f.truth.map (fun r => r.user_id))

/-- The ordered recommended items of user `u` in a fold. -/
def userRecs (f : Fold) (u : String) : List String :=
  (f.rank.filter (fun r => r.user_id == u)).map (fun r => r.item_id)

/-- The ground-truth items of user `u` in a fold. -/
def truthItems (f : Fold) (u : String) : List String :=
  (f.truth.filter (fun r => r.user_id == u)).map (fun r => r.item_id)

/-- Modelled from the spec (§4.1 RankingAlignment): the ordered list of
recommended items of a user annotated with whether each is relevant, i.e.
present in the user's ground truth. -/
def alignedRelevance (f : Fold) (u : String) : List (String × Bool) :=
  (userRecs f u).map (fun i => (i, (truthItems f u).contains i))

/-- Modelled from the spec (§4.2): a metric declares its capability set
`(per-system, per-user)`, its column name in each table it supports, and its
two computations.  `compute_system` returns `none` when undefined for a fold
(§7 UndefinedMetricValue); `compute_per_user` returns the pairs
`(user, value)` of the users for which the metric is computable. -/
structure Metric : Type where
  sys_name : String
  user_name : String
  capability_system : Bool
  capability_user : Bool
  compute_system : Fold → Option ℚ
  compute_per_user : Fold → List (String × ℚ)

/-- Per-user values of a truth-dependent classification/ranking metric: one
entry per ranking user for which the score is defined (users with no ground
truth are excluded, per spec §4.1 and the test on `u3`). -/
def classificationPerUser (score : Fold → String → Option ℚ) (f : Fold) :
    List (String × ℚ) :=
  (rankUsers f).filterMap (fun u => (score f u).map (fun v => (u, v)))

/-- Macro average (glossary: unweighted mean across users) of a per-user
metric over the users of a fold; `none` when no user has a value. -/
def macroSystem (perUser : Fold → List (String × ℚ)) (f : Fold) : Option ℚ :=
  let vals := (perUser f).map (fun p => p.2)
  if vals.isEmpty then none else some (vals.sum / vals.length)

/-- Per-user precision: fraction of the user's recommended items present in
the user's truth; undefined when the user has no recommendations or no
truth. -/
def precisionUser (f : Fold) (u : String) : Option ℚ :=
  let recs := userRecs f u
  let tr := truthItems f u
  if recs.isEmpty || tr.isEmpty then none
  else some (((recs.filter (fun i => tr.contains i)).length : ℚ) / recs.length)

/-- Per-user recall: fraction of the user's truth items that were
recommended; undefined when the user has no recommendations or no truth. -/
def recallUser (f : Fold) (u : String) : Option ℚ :=
  let recs := userRecs f u
  let tr := truthItems f u
  if recs.isEmpty || tr.isEmpty then none
  else some (((tr.filter (fun i => recs.contains i)).length : ℚ) / tr.length)

/-- Sum over the 1-based ranks `k` holding a relevant item of the running
precision at `k`; `k` is the current rank, `hits` the relevant count so
far. -/
def apNumerator (tr : List String) : List String → Nat → Nat → ℚ
  | [], _, _ => 0
  | i :: rest, k, hits =>
    if tr.contains i then ((hits : ℚ) + 1) / (k : ℚ) + apNumerator tr rest (k + 1) (hits + 1)
    else apNumerator tr rest (k + 1) hits

/-- Per-user average precision: the precision-at-hit sum divided by the
number of ground-truth items; undefined without recommendations or truth. -/
def apUser (f : Fold) (u : String) : Option ℚ :=
  let recs := userRecs f u
  let tr := truthItems f u
  if recs.isEmpty || tr.isEmpty then none
  else some (apNumerator tr recs 1 0 / (tr.length : ℚ))

/-- The `Precision()` metric (macro): column `"Precision - macro"` in both
tables, per the test's expected columns. -/
def Precision : Metric :=
  { sys_name := "Precision - macro"
    user_name := "Precision - macro"
    capability_system := true
    capability_user := true
    compute_system := macroSystem (classificationPerUser precisionUser)
    compute_per_user := classificationPerUser precisionUser }

/-- The `Recall()` metric (macro): column `"Recall - macro"` in both
tables, per the test's expected columns. -/
def Recall : Metric :=
  { sys_name := "Recall - macro"
    user_name := "Recall - macro"
    capability_system := true
    capability_user := true
    compute_system := macroSystem (classificationPerUser recallUser)
    compute_per_user := classificationPerUser recallUser }

/-- The `MAP()` metric: system column `"MAP"` (mean of the per-user average
precisions) but user column `"AP"`, per the test's expected columns. -/
def MAP : Metric :=
  { sys_name := "MAP"
    user_name := "AP"
    capability_system := true
    capability_user := true
    compute_system := macroSystem (classificationPerUser apUser)
    compute_per_user := classificationPerUser apUser }

/-- Popularity of an item in the original pre-split ratings: its number of
interactions, as a rational. -/
def itemPopularity (original_ratings : List Interaction) (i : String) : ℚ :=
  ((original_ratings.filter (fun r => r.item_id == i)).length : ℚ)

/-- Mean popularity of a list of items; `none` for the empty list. -/
def avgPopularity (original_ratings : List Interaction) (items : List String) :
    Option ℚ :=
  if items.isEmpty then none
  else some ((items.map (itemPopularity original_ratings)).sum / items.length)

/-- Modelled from the spec (§4.2 fairness metrics): `DeltaGap` needs the
original pre-split rating distribution as auxiliary input; per ranking user
with both recommendations and truth it takes the gap between the mean
popularity of the recommended items and of the truth items, and reports the
mean gap for the fold; users for which either side is undefined are skipped,
never an error.  It is a system-level-only metric. -/
def DeltaGap (original_ratings : List Interaction) : Metric :=
  { sys_name := "DeltaGap"
    user_name := "DeltaGap"
    capability_system := true
    capability_user := false
    compute_system := fun f =>
      let gaps := (rankUsers f).filterMap (fun u =>
        match avgPopularity original_ratings (userRecs f u),
              avgPopularity original_ratings (truthItems f u) with
        | some a, some b => some (a - b)
        | _, _ => none)
      if gaps.isEmpty then none else some (gaps.sum / gaps.length)
    compute_per_user := fun _ => [] }

/-- Modelled from the spec (§4.2): a plot-producing metric emits an image
file as a side effect (not part of the return contract, §5) and contributes
an empty frame to both result tables: no capability, no values. -/
def plotMetric (n : String) : Metric :=
  { sys_name := n
    user_name := n
    capability_system := false
    capability_user := false
    compute_system := fun _ => none
    compute_per_user := fun _ => [] }

/-- The `PopRecsCorrelation(original_ratings)` plot metric. -/
def PopRecsCorrelation (original_ratings : List Interaction) : Metric :=
  plotMetric "PopRecsCorrelation"

/-- The `LongTailDistr()` plot metric. -/
def LongTailDistr : Metric :=
  plotMetric "LongTailDistr"

/-- The `PopRatioProfileVsRecs(original_ratings)` plot metric. -/
def PopRatioProfileVsRecs (original_ratings : List Interaction) : Metric :=
  plotMetric "PopRatioProfileVsRecs"

/-- The metrics the evaluation model provides, with the auxiliary original
ratings the fairness/plot metrics require. -/
def registry (original_ratings : List Interaction) : List Metric :=
  [ Precision, Recall, MAP, DeltaGap original_ratings,
    PopRecsCorrelation original_ratings, LongTailDistr,
    PopRatioProfileVsRecs original_ratings ]

/-- An output table: ordered column names and ordered rows, each row a label
with one optional cell per column (missing values allowed, §3). -/
structure Table : Type where
  cols : List String
  rows : List (String × List (Option ℚ))
deriving DecidableEq

/-- The row index of a table. -/
def Table.index (t : Table) : List String :=
  t.rows.map (fun r => r.1)

/-- The metrics of a request that support system-level aggregation, in
request order (§4.3: determinism of column order). -/
def sysMetrics (metric_list : List Metric) : List Metric :=
  metric_list.filter (fun m => m.capability_system)

/-- The metrics of a request that support per-user computation, in request
order. -/
def userMetrics (metric_list : List Metric) : List Metric :=
  metric_list.filter (fun m => m.capability_user)

/-- The system table's row label for fold `k` (0-based): `"sys - fold1"`,
`"sys - fold2"`, … per the test's expected index. -/
def foldRowLabel (k : Nat) : String :=
  "sys - fold" ++ toString (k + 1)

/-- One system-table row per fold, in fold order, starting at fold index
`k`: each row holds one cell per system-capable metric. -/
def systemFoldRows (ms : List Metric) : Nat → List Fold → List (String × List (Option ℚ))
  | _, [] => []
  | k, f :: fs =>
    (foldRowLabel k, ms.map (fun m => m.compute_system f)) :: systemFoldRows ms (k + 1) fs

/-- Column-wise arithmetic mean of a list of optional cells, skipping the
missing ones (§4.3: "skipping missing values in the mean, not treating them
as zero"); `none` when every cell is missing. -/
def columnMean (cells : List (Option ℚ)) : Option ℚ :=
  let vals := cells.filterMap id
  if vals.isEmpty then none else some (vals.sum / vals.length)

/-- The `"sys - mean"` row: the column-wise mean of the fold rows. -/
def meanRow (rows : List (String × List (Option ℚ))) (ncols : Nat) : List (Option ℚ) :=
  (List.range ncols).map (fun j => columnMean (rows.map (fun r => r.2.getD j none)))

/-- Modelled from the spec (§4.3.1) and the tests: the system-level table has
one row per fold, in fold order, followed by the `"sys - mean"` row, with one
column per system-capable requested metric in request order; when no
requested metric supports system-level aggregation the table is empty (the
test with only plot metrics asserts `len(sys_result) == 0`). -/
def systemTable (metric_list : List Metric) (folds : List Fold) : Table :=
  let ms := sysMetrics metric_list
  if ms.isEmpty then ⟨[], []⟩
  else
    let foldRows := systemFoldRows ms 0 folds
    ⟨ms.map (fun m => m.sys_name), foldRows ++ [("sys - mean", meanRow foldRows ms.length)]⟩

/-- Row index of the user table: the union, in order of first appearance
across folds, of the users for which some per-user-capable requested metric
produced a value (§4.3.2). -/
def userTableIndex (metric_list : List Metric) (folds : List Fold) : List String :=
  firstAppearance (folds.flatMap (fun f =>
    (userMetrics metric_list).flatMap (fun m => (m.compute_per_user f).map (fun p => p.1))))

/-- The user-table cell for metric `m` and user `u`: the mean of `m`'s value
for `u` across the folds where it was computable; `none` when none (§4.3.2:
missing folds are excluded from the mean, not averaged as zero). -/
def userCellValue (m : Metric) (folds : List Fold) (u : String) : Option ℚ :=
  let vals := folds.filterMap (fun f => (m.compute_per_user f).lookup u)
  if vals.isEmpty then none else some (vals.sum / vals.length)

/-- Modelled from the spec (§4.3.2) and the tests: the user-level table has
one row per user that got at least one per-user value, in first-appearance
order, with one column per user-capable requested metric in request order;
empty when no requested metric supports per-user computation. -/
def userTable (metric_list : List Metric) (folds : List Fold) : Table :=
  let ms := userMetrics metric_list
  if ms.isEmpty then ⟨[], []⟩
  else
    let users := userTableIndex metric_list folds
    ⟨ms.map (fun m => m.user_name),
     users.map (fun u => (u, ms.map (fun m => userCellValue m folds u)))⟩

/-- Modelled from the spec (§6, §7): `MetricEvaluator(rank_pred_list,
truth_list).eval_metrics(metric_list)`.  A fold-count mismatch is the fatal
`InputShapeError`, raised before any computation; otherwise the rankings and
truths are paired positionally into folds and both tables are returned. -/
def eval_metrics (rank_pred_list : List (List Interaction))
    (truth_list : List (List Interaction)) (metric_list : List Metric) :
    Except String (Table × Table) :=
  if rank_pred_list.length ≠ truth_list.length then Except.error "InputShapeError"
  else
    let folds := (rank_pred_list.zip truth_list).map (fun p => Fold.mk p.1 p.2)
    Except.ok (systemTable metric_list folds, userTable metric_list folds)

/-! ### Concrete scenario data (spec §8)

`folds = 1`, `rankings = u1: [(i7,500),(i10,400)]`,
`truth = u1: [(i7,3),(i8,1)]`. -/

/-- The scenario ranking of §8. -/
def scenarioRank : List Interaction :=
  [⟨"u1", "i7", 500⟩, ⟨"u1", "i10", 400⟩]

/-- The scenario truth of §8. -/
def scenarioTruth : List Interaction :=
  [⟨"u1", "i7", 3⟩, ⟨"u1", "i8", 1⟩]

/-- The single scenario fold of §8. -/
def scenarioFold : Fold :=
  ⟨scenarioRank, scenarioTruth⟩

/-- Ranking with a user `u6` that is absent from the truth (§8 scenario on
missing-truth users). -/
def missingTruthRank : List Interaction :=
  [⟨"u1", "i7", 500⟩, ⟨"u1", "i10", 400⟩, ⟨"u6", "inew_2", 100⟩]

/-- A fold whose ranking contains `u6` while its truth does not. -/
def missingTruthFold : Fold :=
  ⟨missingTruthRank, scenarioTruth⟩

/-! ## Helper lemmas -/

/-- Membership in a `foldl insertUnique` accumulation. -/
theorem mem_foldl_insertUnique {α : Type} [DecidableEq α] (l : List α) :
    ∀ (acc : List α) (a : α), a ∈ l.foldl insertUnique acc ↔ a ∈ acc ∨ a ∈ l := by
  induction l with
  | nil => intro acc a; simp
  | cons x xs ih =>
    intro acc a
    rw [List.foldl_cons, ih]
    unfold insertUnique
    by_cases hx : x ∈ acc
    · simp only [if_pos hx, List.mem_cons]
      constructor
      · rintro (h | h)
        · exact Or.inl h
        · exact Or.inr (Or.inr h)
      · rintro (h | h | h)
        · exact Or.inl h
        · exact Or.inl (h ▸ hx)
        · exact Or.inr h
    · simp only [if_neg hx, List.mem_append, List.mem_singleton, List.mem_cons]
      tauto

/-- `firstAppearance` preserves membership. -/
theorem mem_firstAppearance {α : Type} [DecidableEq α] (l : List α) (a : α) :
    a ∈ firstAppearance l ↔ a ∈ l := by
  unfold firstAppearance
  rw [mem_foldl_insertUnique]
  simp

/-- A pair produced by `classificationPerUser` carries a defined score for
its user. -/
theorem classificationPerUser_mem {score : Fold → String → Option ℚ} {f : Fold}
    {u : String} {v : ℚ} (h : (u, v) ∈ classificationPerUser score f) :
    score f u = some v := by
  unfold classificationPerUser at h
  rw [List.mem_filterMap] at h
  obtain ⟨w, _, hmap⟩ := h
  rw [Option.map_eq_some'] at hmap
  obtain ⟨a, ha, heq⟩ := hmap
  cases heq
  exact ha

/-- `precisionUser` is undefined for a user with no ground truth. -/
theorem precisionUser_no_truth {f : Fold} {u : String} (h : truthItems f u = []) :
    precisionUser f u = none := by
  simp [precisionUser, h]

/-- `recallUser` is undefined for a user with no ground truth. -/
theorem recallUser_no_truth {f : Fold} {u : String} (h : truthItems f u = []) :
    recallUser f u = none := by
  simp [recallUser, h]

/-- `apUser` is undefined for a user with no ground truth. -/
theorem apUser_no_truth {f : Fold} {u : String} (h : truthItems f u = []) :
    apUser f u = none := by
  simp [apUser, h]

/-- `systemFoldRows` yields one row per fold. -/
theorem systemFoldRows_length (ms : List Metric) :
    ∀ (k : Nat) (folds : List Fold), (systemFoldRows ms k folds).length = folds.length := by
  intro k folds
  induction folds generalizing k with
  | nil => rfl
  | cons f fs ih => simp [systemFoldRows, ih]

/-- The labels of `systemFoldRows` are the fold labels in fold order. -/
theorem systemFoldRows_labels (ms : List Metric) :
    ∀ (k : Nat) (folds : List Fold),
      (systemFoldRows ms k folds).map (fun r => r.1) =
        (List.range' k folds.length).map foldRowLabel := by
  intro k folds
  induction folds generalizing k with
  | nil => rfl
  | cons f fs ih => simp [systemFoldRows, List.range'_succ, ih]

/-- `getD` of a mapped list at a position holding `x` gives `g x`. -/
theorem map_getD_of_getElem? {α β : Type} (g : α → β) :
    ∀ (l : List α) (j : Nat) (x : α), l[j]? = some x → ∀ d, (l.map g).getD j d = g x := by
  intro l
  induction l with
  | nil => intro j x h; simp at h
  | cons a as ih =>
    intro j x h d
    cases j with
    | zero =>
      simp only [List.getElem?_cons_zero, Option.some.injEq] at h
      subst h
      rfl
    | succ n =>
      simp only [List.getElem?_cons_succ] at h
      simpa [List.getD_cons_succ] using ih n x h d

/-- The `j`-th cells of the fold rows are the metric's per-fold system
values, when `m` is the `j`-th system-capable metric. -/
theorem systemFoldRows_cells {ms : List Metric} {m : Metric} {j : Nat}
    (hj : ms[j]? = some m) :
    ∀ (k : Nat) (folds : List Fold),
      (systemFoldRows ms k folds).map (fun r => r.2.getD j none) =
        folds.map (fun f => m.compute_system f) := by
  intro k folds
  induction folds generalizing k with
  | nil => rfl
  | cons f fs ih =>
    simp only [systemFoldRows, List.map_cons, ih]
    rw [map_getD_of_getElem? _ ms j m hj]

/-- `filterMap id` on a list of everywhere-defined optionals is the list of
their values. -/
theorem filterMap_id_all_some :
    ∀ (l : List (Option ℚ)), (∀ x ∈ l, x.isSome) →
      l.filterMap id = l.map (fun x => x.getD 0) := by
  intro l
  induction l with
  | nil => intro _; rfl
  | cons x xs ih =>
    intro h
    obtain ⟨v, hv⟩ := Option.isSome_iff_exists.mp (h x (List.mem_cons_self x xs))
    subst hv
    simp only [List.filterMap_cons, id, List.map_cons, Option.getD_some]
    rw [ih (fun y hy => h y (List.mem_cons_of_mem _ hy))]

/-- `columnMean` over a column defined in every fold is the sum of the fold
values divided by the number of folds. -/
theorem columnMean_all_some (folds : List Fold) (g : Fold → Option ℚ)
    (hall : ∀ f ∈ folds, (g f).isSome) (hne : folds ≠ []) :
    columnMean (folds.map g) =
      some ((folds.map (fun f => (g f).getD 0)).sum / folds.length) := by
  have hfm : (folds.map g).filterMap id = folds.map (fun f => (g f).getD 0) := by
    rw [filterMap_id_all_some]
    · rw [List.map_map]
      rfl
    · intro x hx
      rw [List.mem_map] at hx
      obtain ⟨f, hf, hfx⟩ := hx
      exact hfx ▸ hall f hf
  have hlen : (folds.map (fun f => (g f).getD 0)).length = folds.length :=
    List.length_map _ _
  unfold columnMean
  rw [hfm]
  have hvne : folds.map (fun f => (g f).getD 0) ≠ [] := by
    intro hc
    exact hne (List.map_eq_nil_iff.mp hc)
  have hie : (folds.map (fun f => (g f).getD 0)).isEmpty = false := by
    cases hmm : folds.map (fun f => (g f).getD 0) with
    | nil => exact absurd hmm hvne
    | cons y ys => rfl
  simp only [hie, Bool.false_eq_true, if_false, hlen]

/-- Mean of a single defined cell. -/
theorem columnMean_singleton (q : ℚ) : columnMean [some q] = some q := by
  unfold columnMean
  have h2 : (([some q] : List (Option ℚ)).filterMap id) = [q] := rfl
  simp only [h2, List.isEmpty_cons, Bool.false_eq_true, if_false, List.sum_cons, List.sum_nil,
    List.length_cons, List.length_nil]
  norm_num

/-! ### Concrete evaluations on the §8 scenario fold -/

/-- Precision of `u1` on the scenario fold: one of the two recommended items
is in the truth. -/
theorem scenario_precisionUser : precisionUser scenarioFold "u1" = some (1 / 2) := by
  have hrecs : userRecs scenarioFold "u1" = ["i7", "i10"] := rfl
  have htr : truthItems scenarioFold "u1" = ["i7", "i8"] := rfl
  have hf : (["i7", "i10"] : List String).filter
      (fun i => (["i7", "i8"] : List String).contains i) = ["i7"] := rfl
  unfold precisionUser
  rw [hrecs, htr]
  simp only [hf]
  norm_num

/-- Average precision of `u1` on the scenario fold: the single relevant
recommended item `i7` is hit at rank 1, over 2 truth items. -/
theorem scenario_apUser : apUser scenarioFold "u1" = some (1 / 2) := by
  have hrecs : userRecs scenarioFold "u1" = ["i7", "i10"] := rfl
  have htr : truthItems scenarioFold "u1" = ["i7", "i8"] := rfl
  unfold apUser
  rw [hrecs, htr]
  have h1 : (["i7", "i8"] : List String).contains "i7" = true := rfl
  have h2 : (["i7", "i8"] : List String).contains "i10" = false := rfl
  simp [apNumerator, h1, h2]

/-- Per-user precision values of the scenario fold. -/
theorem scenario_precision_per_user :
    classificationPerUser precisionUser scenarioFold = [("u1", (1 : ℚ) / 2)] := by
  have hru : rankUsers scenarioFold = ["u1"] := rfl
  unfold classificationPerUser
  rw [hru]
  simp only [List.filterMap_cons, List.filterMap_nil, scenario_precisionUser, Option.map_some']

/-- Per-user average-precision values of the scenario fold. -/
theorem scenario_ap_per_user :
    classificationPerUser apUser scenarioFold = [("u1", (1 : ℚ) / 2)] := by
  have hru : rankUsers scenarioFold = ["u1"] := rfl
  unfold classificationPerUser
  rw [hru]
  simp only [List.filterMap_cons, List.filterMap_nil, scenario_apUser, Option.map_some']

/-- System-level Precision of the scenario fold (macro over the one user). -/
theorem scenario_precision_system : Precision.compute_system scenarioFold = some (1 / 2) := by
  show macroSystem (classificationPerUser precisionUser) scenarioFold = some (1 / 2)
  unfold macroSystem
  simp only [scenario_precision_per_user]
  norm_num

/-- User-table Precision cell of `u1` for the single scenario fold. -/
theorem scenario_precision_cell :
    userCellValue Precision [scenarioFold] "u1" = some (1 / 2) := by
  unfold userCellValue
  have hl : (Precision.compute_per_user scenarioFold).lookup "u1" =
      precisionUser scenarioFold "u1" := rfl
  simp only [List.filterMap_cons, List.filterMap_nil, hl, scenario_precisionUser]
  norm_num

/-- User-table AP cell of `u1` for the single scenario fold. -/
theorem scenario_ap_cell : userCellValue ClayRS.MAP [scenarioFold] "u1" = some (1 / 2) := by
  unfold userCellValue
  have hl : (ClayRS.MAP.compute_per_user scenarioFold).lookup "u1" =
      apUser scenarioFold "u1" := rfl
  simp only [List.filterMap_cons, List.filterMap_nil, hl, scenario_apUser]
  norm_num

/-! ## Claim theorems -/

/-- C1 (counterexample): with the non-empty request
`[PopRecsCorrelation, LongTailDistr]` — only plot metrics — and one fold, the
system table does not have `K + 1 = 2` rows: it is empty, as the repository's
own test asserts (`len(sys_result) == 0`). -/
theorem C1_counterexample :
    ¬ ((systemTable [PopRecsCorrelation [], LongTailDistr] [scenarioFold]).rows.length =
        [scenarioFold].length + 1) := by
  decide

/-- C1 (amended): whenever the request contains at least one metric that
supports system-level aggregation, the system table has exactly `K + 1`
rows: one per fold in fold order labelled `"sys - fold1"`, …, followed by
the final `"sys - mean"` row. -/
theorem C1_system_table_shape (metric_list : List Metric) (folds : List Fold)
    (h : (sysMetrics metric_list).isEmpty = false) :
    (systemTable metric_list folds).rows.length = folds.length + 1 ∧
    (systemTable metric_list folds).index =
      (List.range folds.length).map foldRowLabel ++ ["sys - mean"] := by
  unfold systemTable
  simp only [h, Bool.false_eq_true, if_false]
  constructor
  · simp [systemFoldRows_length]
  · unfold Table.index
    rw [List.map_append, systemFoldRows_labels, List.range_eq_range']
    rfl

/-- C1 (witness): for the request `[Precision]` and one fold the amended
claim applies and gives the two rows `"sys - fold1"`, `"sys - mean"`. -/
theorem C1_witness :
    (sysMetrics [Precision]).isEmpty = false ∧
    ((systemTable [Precision] [scenarioFold]).rows.length = [scenarioFold].length + 1 ∧
      (systemTable [Precision] [scenarioFold]).index =
        (List.range [scenarioFold].length).map foldRowLabel ++ ["sys - mean"]) :=
  ⟨rfl, C1_system_table_shape [Precision] [scenarioFold] rfl⟩

/-- C2: the three plot metrics contribute nothing to either table — with only
plot metrics requested both returned tables are empty, and `eval_metrics`
still returns both; run alongside the classification metric `Precision`, the
tables carry exactly the classification column, whose cells are non-empty,
while the plot metrics' own contribution stays empty. -/
theorem C2_plot_metrics_contract (original_ratings : List Interaction) (folds : List Fold) :
    systemTable [PopRecsCorrelation original_ratings, LongTailDistr,
        PopRatioProfileVsRecs original_ratings] folds = ⟨[], []⟩ ∧
    userTable [PopRecsCorrelation original_ratings, LongTailDistr,
        PopRatioProfileVsRecs original_ratings] folds = ⟨[], []⟩ ∧
    eval_metrics [scenarioRank] [scenarioTruth]
        [PopRecsCorrelation original_ratings, LongTailDistr] =
      Except.ok (⟨[], []⟩, ⟨[], []⟩) ∧
    (systemTable [Precision, PopRecsCorrelation original_ratings, LongTailDistr] folds).cols =
      ["Precision - macro"] ∧
    (userTable [Precision, PopRecsCorrelation original_ratings, LongTailDistr] folds).cols =
      ["Precision - macro"] ∧
    (systemTable [Precision, PopRecsCorrelation original_ratings, LongTailDistr]
        [scenarioFold]).rows =
      [("sys - fold1", [some (1 / 2)]), ("sys - mean", [some (1 / 2)])] ∧
    (userTable [Precision, PopRecsCorrelation original_ratings, LongTailDistr]
        [scenarioFold]).rows = [("u1", [some (1 / 2)])] := by
  refine ⟨rfl, rfl, rfl, rfl, rfl, ?_, ?_⟩
  · have hsm : sysMetrics [Precision, PopRecsCorrelation original_ratings, LongTailDistr] =
        [Precision] := rfl
    have hfr : systemFoldRows [Precision] 0 [scenarioFold] =
        [("sys - fold1", [Precision.compute_system scenarioFold])] := rfl
    have hmr : meanRow [("sys - fold1", [some ((1 : ℚ) / 2)])] 1 = [some ((1 : ℚ) / 2)] := by
      have h0 : List.range 1 = [0] := rfl
      unfold meanRow
      rw [h0]
      simp only [List.map_cons, List.map_nil, List.getD_cons_zero, columnMean_singleton]
    unfold systemTable
    simp only [hsm, List.isEmpty_cons, Bool.false_eq_true, if_false, List.length_cons,
      List.length_nil, hfr, scenario_precision_system, hmr]
    rfl
  · have hum : userMetrics [Precision, PopRecsCorrelation original_ratings, LongTailDistr] =
        [Precision] := rfl
    have husers : userTableIndex
        [Precision, PopRecsCorrelation original_ratings, LongTailDistr] [scenarioFold] =
        ["u1"] := rfl
    unfold userTable
    simp only [hum, husers, List.isEmpty_cons, Bool.false_eq_true, if_false, List.map_cons,
      List.map_nil, scenario_precision_cell]

/-- C3 (counterexample): `MAP` supports both capabilities, yet its column in
the system table is `"MAP"` while its column in the user table is `"AP"` —
the two column names differ, as the repository's own test asserts. -/
theorem C3_counterexample :
    ClayRS.MAP.capability_system = true ∧ ClayRS.MAP.capability_user = true ∧
    (systemTable [ClayRS.MAP] [scenarioFold]).cols = ["MAP"] ∧
    (userTable [ClayRS.MAP] [scenarioFold]).cols = ["AP"] ∧
    ("MAP" : String) ≠ "AP" :=
  ⟨rfl, rfl, rfl, rfl, by decide⟩

/-- C3 (amended): each metric supporting the system (resp. per-user)
capability contributes exactly one column to the corresponding table, in
request order, under its capability-specific column name — so a metric
supporting only one capability appears only in that table, and a metric
supporting both appears in both; the two names coincide for `Precision` and
`Recall` but differ for `MAP`, whose per-user column is `"AP"`. -/
theorem C3_table_columns (metric_list : List Metric) (folds : List Fold) :
    (systemTable metric_list folds).cols =
      (sysMetrics metric_list).map (fun m => m.sys_name) ∧
    (userTable metric_list folds).cols =
      (userMetrics metric_list).map (fun m => m.user_name) ∧
    Precision.user_name = Precision.sys_name ∧
    Recall.user_name = Recall.sys_name ∧
    ClayRS.MAP.sys_name = "MAP" ∧ ClayRS.MAP.user_name = "AP" := by
  refine ⟨?_, ?_, rfl, rfl, rfl, rfl⟩
  · cases h : sysMetrics metric_list with
    | nil => simp [systemTable, h]
    | cons m ms => simp [systemTable, h]
  · cases h : userMetrics metric_list with
    | nil => simp [userTable, h]
    | cons m ms => simp [userTable, h]

/-- C4: over the provided metrics, a user absent from every fold's ground
truth never appears in the user table's index — a user present in the
rankings but missing from the truth is skipped by every per-user metric and
by the `DeltaGap`-style fairness metrics rather than raising — and the
evaluation completes, returning both tables, whenever the fold counts
match. -/
theorem C4_missing_truth_user (original_ratings : List Interaction)
    (metric_list : List Metric) (folds : List Fold) (u : String)
    (rank_pred_list truth_list : List (List Interaction))
    (hmem : ∀ m ∈ metric_list, m ∈ registry original_ratings)
    (habs : ∀ f ∈ folds, truthItems f u = [])
    (hlen : rank_pred_list.length = truth_list.length) :
    u ∉ (userTable metric_list folds).index ∧
    ∃ tables, eval_metrics rank_pred_list truth_list metric_list = Except.ok tables := by
  constructor
  · intro hu
    have hu' : u ∈ userTableIndex metric_list folds := by
      cases h : (userMetrics metric_list).isEmpty with
      | true =>
        simp [userTable, Table.index, h] at hu
      | false =>
        simp only [userTable, Table.index, h, Bool.false_eq_true, if_false,
          List.map_map] at hu
        simpa using hu
    rw [userTableIndex, mem_firstAppearance, List.mem_flatMap] at hu'
    obtain ⟨f, hf, hu2⟩ := hu'
    rw [List.mem_flatMap] at hu2
    obtain ⟨m, hm, hu3⟩ := hu2
    rw [List.mem_map] at hu3
    obtain ⟨p, hp, hpu⟩ := hu3
    obtain ⟨a, b⟩ := p
    simp only at hpu
    subst hpu
    have hreg := hmem m (List.mem_of_mem_filter hm)
    have htr := habs f hf
    simp only [registry, List.mem_cons, List.not_mem_nil, or_false] at hreg
    obtain hP | hR | hM | hD | h1 | h2 | h3 := hreg
    · subst hP
      have hp' : (a, b) ∈ classificationPerUser precisionUser f := hp
      have hv := classificationPerUser_mem hp'
      rw [precisionUser_no_truth htr] at hv
      exact Option.noConfusion hv
    · subst hR
      have hp' : (a, b) ∈ classificationPerUser recallUser f := hp
      have hv := classificationPerUser_mem hp'
      rw [recallUser_no_truth htr] at hv
      exact Option.noConfusion hv
    · subst hM
      have hp' : (a, b) ∈ classificationPerUser apUser f := hp
      have hv := classificationPerUser_mem hp'
      rw [apUser_no_truth htr] at hv
      exact Option.noConfusion hv
    · subst hD
      simp [DeltaGap] at hp
    · subst h1
      simp [PopRecsCorrelation, plotMetric] at hp
    · subst h2
      simp [LongTailDistr, plotMetric] at hp
    · subst h3
      simp [PopRatioProfileVsRecs, plotMetric] at hp
  · refine ⟨(systemTable metric_list ((rank_pred_list.zip truth_list).map
        (fun p => Fold.mk p.1 p.2)),
      userTable metric_list ((rank_pred_list.zip truth_list).map
        (fun p => Fold.mk p.1 p.2))), ?_⟩
    simp [eval_metrics, hlen]

/-- C4 (witness): with the request `[Precision, DeltaGap]`, a fold whose
ranking contains `u6` but whose truth does not, and matching fold counts,
`u6` is absent from the user table's index and the evaluation returns both
tables. -/
theorem C4_witness :
    (∀ m ∈ ([Precision, DeltaGap []] : List Metric), m ∈ registry []) ∧
    (∀ f ∈ [missingTruthFold], truthItems f "u6" = []) ∧
    ([missingTruthRank] : List (List Interaction)).length =
      ([scenarioTruth] : List (List Interaction)).length ∧
    ("u6" ∉ (userTable [Precision, DeltaGap []] [missingTruthFold]).index ∧
      ∃ tables, eval_metrics [missingTruthRank] [scenarioTruth] [Precision, DeltaGap []] =
        Except.ok tables) := by
  have p1 : ∀ m ∈ ([Precision, DeltaGap []] : List Metric), m ∈ registry [] := by
    intro m hm
    simp only [List.mem_cons, List.not_mem_nil, or_false] at hm
    obtain h | h := hm
    · subst h
      simp [registry]
    · subst h
      simp [registry]
  have p2 : ∀ f ∈ [missingTruthFold], truthItems f "u6" = [] := by
    intro f hf
    simp only [List.mem_singleton] at hf
    subst hf
    rfl
  exact ⟨p1, p2, rfl,
    C4_missing_truth_user [] [Precision, DeltaGap []] [missingTruthFold] "u6"
      [missingTruthRank] [scenarioTruth] p1 p2 rfl⟩

/-- C5: the system table ends with the `"sys - mean"` row, whose cells are
the column-wise means of the fold rows over the defined entries; in
particular, for the `j`-th system metric `m` whose value is defined in all
`K` folds, the mean cell equals the sum of the fold values divided by
`K`. -/
theorem C5_mean_row_is_column_mean (metric_list : List Metric) (folds : List Fold)
    (m : Metric) (j : Nat)
    (hj : (sysMetrics metric_list)[j]? = some m)
    (hall : ∀ f ∈ folds, (m.compute_system f).isSome)
    (hne : folds ≠ []) :
    ∃ cells, (systemTable metric_list folds).rows.getLast? = some ("sys - mean", cells) ∧
      cells.getD j none =
        some ((folds.map (fun f => (m.compute_system f).getD 0)).sum / folds.length) := by
  have hms : (sysMetrics metric_list).isEmpty = false := by
    cases h : sysMetrics metric_list with
    | nil =>
      rw [h] at hj
      simp at hj
    | cons x xs => rfl
  refine ⟨meanRow (systemFoldRows (sysMetrics metric_list) 0 folds)
    (sysMetrics metric_list).length, ?_, ?_⟩
  · unfold systemTable
    simp only [hms, Bool.false_eq_true, if_false]
    exact List.getLast?_concat _
  · have hlt : j < (sysMetrics metric_list).length := by
      obtain ⟨hl, _⟩ := List.getElem?_eq_some.mp hj
      exact hl
    unfold meanRow
    rw [map_getD_of_getElem?
      (fun j => columnMean ((systemFoldRows (sysMetrics metric_list) 0 folds).map
        (fun r => r.2.getD j none)))
      (List.range (sysMetrics metric_list).length) j j (List.getElem?_range hlt) none]
    rw [systemFoldRows_cells hj 0 folds]
    exact columnMean_all_some folds _ hall hne

/-- C5 (witness): for the request `[Precision]` and the single scenario fold,
the mean row's Precision cell equals the fold value sum divided by 1. -/
theorem C5_witness :
    ((sysMetrics [Precision])[0]? = some Precision ∧
      (∀ f ∈ [scenarioFold], (Precision.compute_system f).isSome) ∧
      ([scenarioFold] : List Fold) ≠ []) ∧
    (∃ cells, (systemTable [Precision] [scenarioFold]).rows.getLast? =
        some ("sys - mean", cells) ∧
      cells.getD 0 none =
        some ((([scenarioFold] : List Fold).map
          (fun f => (Precision.compute_system f).getD 0)).sum /
            ([scenarioFold] : List Fold).length)) := by
  have hall : ∀ f ∈ [scenarioFold], (Precision.compute_system f).isSome := by
    intro f hf
    simp only [List.mem_singleton] at hf
    subst hf
    rw [scenario_precision_system]
    rfl
  exact ⟨⟨rfl, hall, List.cons_ne_nil _ _⟩,
    C5_mean_row_is_column_mean [Precision] [scenarioFold] Precision 0 rfl hall
      (List.cons_ne_nil _ _)⟩

/-- C6: in the §8 scenario fold (rankings `u1: [(i7,500),(i10,400)]`, truth
`u1: {i7:3, i8:1}`), Precision over the two recommended items for `u1` is
`0.5`, `u1`'s average precision is `1/2` (the single relevant recommended
item `i7` hit at rank 1, divided by the 2 truth items), the aligned
relevance list marks exactly `i7` (rank 1) as relevant, and the user table
for Precision and MAP holds those values for `u1`. -/
theorem C6_scenario_precision_ap :
    precisionUser scenarioFold "u1" = some (1 / 2) ∧
    apUser scenarioFold "u1" = some (1 / 2) ∧
    alignedRelevance scenarioFold "u1" = [("i7", true), ("i10", false)] ∧
    (userTable [Precision, ClayRS.MAP] [scenarioFold]).rows =
      [("u1", [some (1 / 2), some (1 / 2)])] ∧
    (userTable [Precision, ClayRS.MAP] [scenarioFold]).cols =
      ["Precision - macro", "AP"] := by
  refine ⟨scenario_precisionUser, scenario_apUser, by decide, ?_, rfl⟩
  have hum : userMetrics [Precision, ClayRS.MAP] = [Precision, ClayRS.MAP] := rfl
  have husers : userTableIndex [Precision, ClayRS.MAP] [scenarioFold] = ["u1"] := rfl
  unfold userTable
  simp only [hum, husers, List.isEmpty_cons, Bool.false_eq_true, if_false, List.map_cons,
    List.map_nil, scenario_precision_cell, scenario_ap_cell]

/-- C7: importing `clayrs.evaluation.metrics` does not succeed: the package
module body contains the unresolved merge-conflict marker line
`<<<<<<< HEAD`, which no Python statement can start with, so the import
raises `SyntaxError` and binds none of the metric names. -/
theorem C7_metrics_import_fails :
    importEvaluationMetrics = Except.error "SyntaxError" ∧
    "<<<<<<< HEAD" ∈ metricsInitLines := by
  constructor
  · rfl
  · exact List.mem_cons_of_mem _ (List.mem_cons_of_mem _ (List.mem_cons_of_mem _
      (List.mem_cons_self _ _)))

/-- C8: `CollectionBasedTechnique.produce_content` refactors the dataset at
the start, returns exactly one representation per content position
`0 .. dataset_len - 1` in order (all read from the refactored state), and
hands back the state produced by `delete_refactored`; for the
`TfIdfTechnique`/`SynsetDocumentFrequency` shape, whose `delete_refactored`
drops both cached attributes, no refactored-dataset state survives the
call. -/
theorem C8_produce_content_scoped {σ M Source Re : Type}
    (t : CollectionBasedTechnique σ Source Re) (s0 : σ) (src : Source)
    (refactor : TfIdfState M → Source → TfIdfState M × Nat)
    (single : TfIdfState M → Nat → Re) (st : TfIdfState M) :
    produce_content t s0 src =
      (t.delete_refactored (t.dataset_refactor s0 src).1,
        (List.range (t.dataset_refactor s0 src).2).map
          (t.produce_single_repr (t.dataset_refactor s0 src).1)) ∧
    (produce_content t s0 src).2.length = (t.dataset_refactor s0 src).2 ∧
    (produce_content (mkTfIdfTechnique refactor single) st src).1 =
      ⟨none, none⟩ := by
  refine ⟨rfl, ?_, rfl⟩
  simp [produce_content]

/-- C9: `FieldContentProductionTechnique.process_data` is the left fold of
applying each preprocessor's `process` over the preprocessor list in list
order; with an empty preprocessor list it is the identity. -/
theorem C9_process_data_foldl (data : FieldData) (preprocessor_list : List InformationProcessor) :
    process_data data preprocessor_list =
      preprocessor_list.foldl (fun d p => p.process d) data ∧
    process_data data [] = data := by
  constructor
  · induction preprocessor_list generalizing data with
    | nil => rfl
    | cons p rest ih => simp only [process_data, List.foldl_cons, ih]
  · rfl

/-- C10: for `SkRidge`, `SkBayesianRidge` and `SkARDRegression`, `fit` and
`predict` on a sparse csr input produce the same model state and the same
predictions as on the equivalent dense array `X.toarray()`, and a dense
input is passed through to the underlying sklearn model unchanged. -/
theorem C10_regressors_sparse_dense {D S T P St : Type} (toarray : S → D)
    (m : SKLearnModel D T P St) (Xs : S) (Xd : D) (Y : T) :
    (skRidge_fit toarray m (Sum.inr Xs) Y = skRidge_fit toarray m (Sum.inl (toarray Xs)) Y ∧
      skRidge_predict toarray m (Sum.inr Xs) =
        skRidge_predict toarray m (Sum.inl (toarray Xs)) ∧
      skRidge_fit toarray m (Sum.inl Xd) Y = m.fitFn m.state Xd Y ∧
      skRidge_predict toarray m (Sum.inl Xd) = m.predictFn m.state Xd) ∧
    (skBayesianRidge_fit toarray m (Sum.inr Xs) Y =
        skBayesianRidge_fit toarray m (Sum.inl (toarray Xs)) Y ∧
      skBayesianRidge_predict toarray m (Sum.inr Xs) =
        skBayesianRidge_predict toarray m (Sum.inl (toarray Xs)) ∧
      skBayesianRidge_fit toarray m (Sum.inl Xd) Y = m.fitFn m.state Xd Y ∧
      skBayesianRidge_predict toarray m (Sum.inl Xd) = m.predictFn m.state Xd) ∧
    (skARDRegression_fit toarray m (Sum.inr Xs) Y =
        skARDRegression_fit toarray m (Sum.inl (toarray Xs)) Y ∧
      skARDRegression_predict toarray m (Sum.inr Xs) =
        skARDRegression_predict toarray m (Sum.inl (toarray Xs)) ∧
      skARDRegression_fit toarray m (Sum.inl Xd) Y = m.fitFn m.state Xd Y ∧
      skARDRegression_predict toarray m (Sum.inl Xd) = m.predictFn m.state Xd) :=
  ⟨⟨rfl, rfl, rfl, rfl⟩, ⟨rfl, rfl, rfl, rfl⟩, ⟨rfl, rfl, rfl, rfl⟩⟩

end ClayRS
